import Mathlib

/-!
Shallow embedding of the keyward table-operations service
(src/keyward/table_operations.py). Every Service operation is modelled as a
pure function over a Gateway, a record of response functions standing for the
remote table API (grist.browser.api). Each operation returns its Python return
value together with the ordered list of Gateway calls it issued (its effect
trace); a Gateway response of Option.none models the call raising an
exception, which the Python code always catches.
-/

namespace Keyward

/-- A Python scalar value as it appears in records and snapshots: a string,
an integer, a boolean, the explicit null None, or a null-like sentinel such
as pandas NA / NaN (distinct from None in Python). -/
inductive Value where
  | str (s : String)
  | int (n : Int)
  | bool (b : Bool)
  | null
  | na
deriving DecidableEq, Repr, Inhabited

/-- Python equality (the == / != operators) on scalar values. Python
identifies booleans with the integers 0 and 1 (bool is a subclass of int),
None is equal only to None, and the NaN-like sentinel compares unequal to
everything, itself included. -/
def pyEq : Value → Value → Bool
  | Value.str s, Value.str t => s == t
  | Value.int m, Value.int n => m == n
  | Value.bool a, Value.bool b => a == b
  | Value.bool a, Value.int n => (if a then (1 : Int) else 0) == n
  | Value.int n, Value.bool a => n == (if a then (1 : Int) else 0)
  | Value.null, Value.null => true
  | _, _ => false

/-- A record: a Python dict mapping column names to scalar values, in
insertion order. -/
abbrev Record := List (String × Value)

/-- A columnar table snapshot as returned by the Gateway fetch_table call:
a Python dict mapping each column name to its ordered list of values,
including the system columns id and manualSort. -/
abbrev Snapshot := List (String × List Value)

/-- Dict lookup on a snapshot: the value list of the first binding of the
column, if the column is present. -/
def lookupCol (snap : Snapshot) (c : String) : Option (List Value) :=
  (List.find? (fun p => p.1 == c) snap).map (fun p => p.2)

/-- The id column of a snapshot, defaulting to the empty list when absent,
as in the Python expression table_data.get with default. -/
def snapIds (snap : Snapshot) : List Value :=
  (lookupCol snap "id").getD []

/-- An attachment cell value as seen by get_attachment_url: the Python
object has a truthiness and may expose a url member. -/
structure AttVal where
  truthy : Bool
  url : Option String
deriving DecidableEq, Repr

/-- A record returned by the Gateway fetch_selected_record call, mapping
column names to attachment cell values. -/
abbrev AttRecord := List (String × AttVal)

/-- The Remote Table Gateway as a record of response functions. A response
of Option.none models the Gateway call raising an exception. The create
response carries the list of row identifiers assigned to the inserted
records; fetchSelectedRecord may succeed with no record (inner none). -/
structure Gateway where
  fetchTable : String → Option Snapshot
  create : String → List Record → Option (List Value)
  update : String → List Record → Option Unit
  destroy : String → List Value → Option Unit
  fetchSelectedRecord : Int → Option (Option AttRecord)

/-- One issued Gateway call, as observed from outside the Service. -/
inductive Effect where
  | fetch (table : String)
  | create (table : String) (records : List Record)
  | update (table : String) (records : List Record)
  | destroy (table : String) (ids : List Value)
  | fetchSelected (rowId : Int)
deriving DecidableEq, Repr

/-- Whether an effect writes Gateway state (record creation, update or
deletion, as opposed to a read). -/
def Effect.isWrite : Effect → Bool
  | Effect.create _ _ => true
  | Effect.update _ _ => true
  | Effect.destroy _ _ => true
  | _ => false

/-- The throwaway record create_table builds from the column schema: the
empty string for Text columns and the integer 0 for every other type. -/
def dummyRecord (columns : List (String × String)) : Record :=
  columns.map (fun p => (p.1, if p.2 == "Text" then Value.str "" else Value.int 0))

/-- TableOperations.create_table: insert one throwaway record matching the
schema, then, when the Gateway returned a non-empty identifier list, destroy
the first returned identifier; any exception yields false. -/
def create_table (g : Gateway) (table_name : String)
    (columns : List (String × String)) : Bool × List Effect :=
  match g.create table_name [dummyRecord columns] with
  | Option.none => (false, [Effect.create table_name [dummyRecord columns]])
  | Option.some result =>
    match result with
    | [] => (true, [Effect.create table_name [dummyRecord columns]])
    | id0 :: _ =>
      match g.destroy table_name [id0] with
      | Option.some _ =>
        (true, [Effect.create table_name [dummyRecord columns],
                Effect.destroy table_name [id0]])
      | Option.none =>
        (false, [Effect.create table_name [dummyRecord columns],
                 Effect.destroy table_name [id0]])

/-- The Union argument of add_data: a single record or a list of records. -/
inductive RecordsArg where
  | one (r : Record)
  | many (rs : List Record)
deriving DecidableEq, Repr

/-- The normalisation add_data performs first: a non-list argument is
wrapped in a one-element list. -/
def normalizeRecords : RecordsArg → List Record
  | RecordsArg.one r => [r]
  | RecordsArg.many rs => rs

/-- TableOperations.add_data: normalise to a list, delegate to the Gateway
create call, return the assigned identifiers or none on exception. -/
def add_data (g : Gateway) (table_name : String) (arg : RecordsArg) :
    Option (List Value) × List Effect :=
  match g.create table_name (normalizeRecords arg) with
  | Option.some ids =>
    (Option.some ids, [Effect.create table_name (normalizeRecords arg)])
  | Option.none =>
    (Option.none, [Effect.create table_name (normalizeRecords arg)])

/-- The Union argument of delete_data: one row identifier or a list. -/
inductive IdsArg where
  | one (v : Value)
  | many (vs : List Value)
deriving DecidableEq, Repr

/-- TableOperations.delete_data: normalise to a list, delegate to the
Gateway destroy call, return true on success and false on exception. -/
def delete_data (g : Gateway) (table_name : String) (ids : IdsArg) :
    Bool × List Effect :=
  let idl := match ids with
    | IdsArg.many vs => vs
    | IdsArg.one v => [v]
  match g.destroy table_name idl with
  | Option.some _ => (true, [Effect.destroy table_name idl])
  | Option.none => (false, [Effect.destroy table_name idl])

/-- TableOperations.bulk_update_records: one Gateway update call for the
whole batch; on success every row is reported true, on exception every row
is reported false. -/
def bulk_update_records (g : Gateway) (table_name : String)
    (updates : List Record) : List Bool × List Effect :=
  match g.update table_name updates with
  | Option.some _ =>
    (List.replicate updates.length true, [Effect.update table_name updates])
  | Option.none =>
    (List.replicate updates.length false, [Effect.update table_name updates])

/-- The per-row match test of bulk_delete_where: row index i matches when
every predicate column is present in the snapshot, has a value at index i,
and that value compares equal (Python equality) to the predicate value. -/
def rowMatches (snap : Snapshot) (wpred : List (String × Value)) (i : Nat) : Bool :=
  wpred.all (fun p =>
    match lookupCol snap p.1 with
    | Option.some vs => decide (i < vs.length) && pyEq (vs.getD i Value.null) p.2
    | Option.none => false)

/-- The row identifiers bulk_delete_where collects: the entries of the id
column whose index passes the match test, in original row order. -/
def matchingIds (snap : Snapshot) (wpred : List (String × Value)) : List Value :=
  ((snapIds snap).enum.filter (fun p => rowMatches snap wpred p.1)).map (fun p => p.2)

/-- TableOperations.bulk_delete_where: fetch the snapshot, collect matching
row identifiers, and delete them through delete_data when any matched;
zero matches returns true with no delete call. -/
def bulk_delete_where (g : Gateway) (table_name : String)
    (wpred : List (String × Value)) : Bool × List Effect :=
  match g.fetchTable table_name with
  | Option.none => (false, [Effect.fetch table_name])
  | Option.some snap =>
    let row_ids := matchingIds snap wpred
    if row_ids.isEmpty then (true, [Effect.fetch table_name])
    else
      let dres := delete_data g table_name (IdsArg.many row_ids)
      (dres.1, Effect.fetch table_name :: dres.2)

/-- The Python type-name based column-type inference used by both merge
variants: sample the first value of the column that is not None and map its
type name through the int/float/bool/str/NoneType table, defaulting to
Text. A NaN-like sentinel is not None, and its type name is not in the
table, so it also yields Text. -/
def inferColType (vs : List Value) : String :=
  match List.find? (fun v => !(v == Value.null)) vs with
  | Option.some (Value.int _) => "Numeric"
  | Option.some (Value.bool _) => "Bool"
  | Option.some (Value.str _) => "Text"
  | Option.some Value.na => "Text"
  | Option.some Value.null => "Text"
  | Option.none => "Text"

/-- The schema merge_tables derives from a source snapshot when creating a
new target: every non-system column paired with its inferred type, in
snapshot order. -/
def inferredCols (snap : Snapshot) : List (String × String) :=
  snap.filterMap (fun p =>
    if p.1 == "id" || p.1 == "manualSort" then Option.none
    else Option.some (p.1, inferColType p.2))

/-- The record merge_tables assembles for row index i of a source snapshot:
every non-system column of the snapshot whose value list reaches index i,
paired with the value there, in snapshot column order. -/
def recordOfRow (snap : Snapshot) (i : Nat) : Record :=
  snap.filterMap (fun p =>
    if p.1 == "id" || p.1 == "manualSort" then Option.none
    else if i < p.2.length then Option.some (p.1, p.2.getD i Value.null)
    else Option.none)

/-- All records merge_tables assembles from one source snapshot: one record
per entry of the id column. -/
def recordsOfSnap (snap : Snapshot) : List Record :=
  (List.range (snapIds snap).length).map (recordOfRow snap)

/-- The copy loop shared shape of merge_tables: for each source in order,
fetch its snapshot (an exception aborts with false), assemble its records,
and append them to the target through add_data when any exist; failures of
add_data itself are swallowed because its return value is ignored. -/
def copySources (g : Gateway) (tgt : String) : List String → Bool × List Effect
  | [] => (true, [])
  | src :: rest =>
    match g.fetchTable src with
    | Option.none => (false, [Effect.fetch src])
    | Option.some snap =>
      let records := recordsOfSnap snap
      let tr1 := if records.isEmpty then [Effect.fetch src]
        else Effect.fetch src :: (add_data g tgt (RecordsArg.many records)).2
      let rec2 := copySources g tgt rest
      (rec2.1, tr1 ++ rec2.2)

/-- The target and copy-source resolution shared by both merge variants:
a truthy target argument (present and non-empty, by Python truthiness) is
used as given with every source copied; otherwise the first source becomes
the target and is excluded from the copy list. -/
def resolveTarget (sources : List String) (target : Option String) :
    String × List String :=
  match target with
  | Option.some t =>
    if t == "" then (sources.headD "", sources.tail) else (t, sources)
  | Option.none => (sources.headD "", sources.tail)

/-- TableOperations.merge_tables (union mode): resolve the target, when
create_new is set and there are copy sources infer the schema from the first
copy source and create the target, then run the copy loop. -/
def merge_tables (g : Gateway) (sources : List String) (target : Option String)
    (create_new : Bool) : Bool × List Effect :=
  if sources.length < 1 then (false, [])
  else
    let r := resolveTarget sources target
    let tgt := r.1
    let srcs := r.2
    if create_new && !srcs.isEmpty then
      match g.fetchTable (srcs.headD "") with
      | Option.none => (false, [Effect.fetch (srcs.headD "")])
      | Option.some first_source_data =>
        let ct := create_table g tgt (inferredCols first_source_data)
        let cp := copySources g tgt srcs
        (cp.1, Effect.fetch (srcs.headD "") :: ct.2 ++ cp.2)
    else
      copySources g tgt srcs

/-- The non-system column names of a snapshot, in snapshot order. -/
def nonSystemCols (snap : Snapshot) : List String :=
  (snap.map (fun p => p.1)).filter (fun c => !(c == "id" || c == "manualSort"))

/-- The common-column loop of merge_tables_strict: fetch every source in
order (an exception aborts, outer none) and intersect their non-system
column sets, starting from the first source. The returned list models the
Python set; the trace records the fetches issued. -/
def commonColsAux (g : Gateway) (acc : Option (List String)) :
    List String → Option (Option (List String)) × List Effect
  | [] => (Option.some acc, [])
  | src :: rest =>
    match g.fetchTable src with
    | Option.none => (Option.none, [Effect.fetch src])
    | Option.some snap =>
      let src_cols := (nonSystemCols snap).dedup
      let acc2 := match acc with
        | Option.none => Option.some src_cols
        | Option.some cs => Option.some (cs.filter (fun c => src_cols.contains c))
      let r := commonColsAux g acc2 rest
      (r.1, Effect.fetch src :: r.2)

/-- The record merge_tables_strict assembles for row index i of a source
snapshot: every common column whose value list in the snapshot reaches
index i, paired with the value there (absent columns contribute the empty
list, as a dict lookup defaulted to empty would). -/
def strictRecordOfRow (common : List String) (snap : Snapshot) (i : Nat) : Record :=
  common.filterMap (fun c =>
    let vs := (lookupCol snap c).getD []
    if i < vs.length then Option.some (c, vs.getD i Value.null) else Option.none)

/-- All records merge_tables_strict assembles from one source snapshot. -/
def strictRecordsOfSnap (common : List String) (snap : Snapshot) : List Record :=
  (List.range (snapIds snap).length).map (strictRecordOfRow common snap)

/-- The copy loop of merge_tables_strict: like copySources but restricted
to the common columns. -/
def strictCopySources (g : Gateway) (tgt : String) (common : List String) :
    List String → Bool × List Effect
  | [] => (true, [])
  | src :: rest =>
    match g.fetchTable src with
    | Option.none => (false, [Effect.fetch src])
    | Option.some snap =>
      let records := strictRecordsOfSnap common snap
      let tr1 := if records.isEmpty then [Effect.fetch src]
        else Effect.fetch src :: (add_data g tgt (RecordsArg.many records)).2
      let rec2 := strictCopySources g tgt common rest
      (rec2.1, tr1 ++ rec2.2)

/-- The schema merge_tables_strict derives when creating a new target:
each common column typed by sampling the first source snapshot. -/
def strictCols (common : List String) (first_source_data : Snapshot) :
    List (String × String) :=
  common.map (fun c => (c, inferColType ((lookupCol first_source_data c).getD [])))

/-- TableOperations.merge_tables_strict: resolve the target, compute the
intersection of non-system columns over all sources, fail when it is empty,
optionally create the target from the common columns typed by the first
source, then run the restricted copy loop. -/
def merge_tables_strict (g : Gateway) (sources : List String)
    (target : Option String) (create_new : Bool) : Bool × List Effect :=
  if sources.length < 1 then (false, [])
  else
    let r := resolveTarget sources target
    let tgt := r.1
    let srcs := r.2
    let cc := commonColsAux g Option.none sources
    match cc.1 with
    | Option.none => (false, cc.2)
    | Option.some acc =>
      let common := acc.getD []
      if common.isEmpty then (false, cc.2)
      else if create_new then
        match g.fetchTable (sources.headD "") with
        | Option.none => (false, cc.2 ++ [Effect.fetch (sources.headD "")])
        | Option.some first_source_data =>
          let ct := create_table g tgt (strictCols common first_source_data)
          let cp := strictCopySources g tgt common srcs
          (cp.1, cc.2 ++ Effect.fetch (sources.headD "") :: ct.2 ++ cp.2)
      else
        let cp := strictCopySources g tgt common srcs
        (cp.1, cc.2 ++ cp.2)

/-- A pandas DataFrame as create_table_from_dataframe consumes it: an
ordered list of columns, each a name with its dtype string, and an ordered
list of rows, each row a list of values aligned with the columns. -/
structure Frame where
  cols : List (String × String)
  rows : List (List Value)
deriving DecidableEq, Repr

/-- The pandas empty test: a frame is empty when either axis has length
zero (no rows or no columns). -/
def Frame.empty (df : Frame) : Bool :=
  df.rows.isEmpty || df.cols.isEmpty

/-- The pandas dtype to column type table of create_table_from_dataframe;
unrecognised dtypes default to Text. -/
def typeMapPandas (dt : String) : String :=
  if dt == "int64" then "Numeric"
  else if dt == "int32" then "Numeric"
  else if dt == "float64" then "Numeric"
  else if dt == "float32" then "Numeric"
  else if dt == "bool" then "Bool"
  else if dt == "datetime64[ns]" then "Date"
  else if dt == "object" then "Text"
  else if dt == "category" then "Text"
  else "Text"

/-- The null normalisation applied by the replace call before row assembly:
every null-like sentinel becomes the explicit null None; every other value
is unchanged. -/
def normNa : Value → Value
  | Value.na => Value.null
  | v => v

/-- The records create_table_from_dataframe assembles from the frame after
null normalisation: one record per row, pairing each column name with the
normalised value of the row at that column. -/
def frameRecords (df : Frame) : List Record :=
  df.rows.map (fun row => (df.cols.map (fun p => p.1)).zip (row.map normNa))

/-- TableOperations.create_table_from_dataframe: an empty frame returns
none before any Gateway contact; otherwise create the table from the
dtype-mapped schema, insert the normalised records, and return the table
name, with none on any failure. -/
def create_table_from_dataframe (g : Gateway) (table_name : String)
    (df : Frame) : Option String × List Effect :=
  if df.empty then (Option.none, [])
  else
    let cols := df.cols.map (fun p => (p.1, typeMapPandas p.2))
    let ct := create_table g table_name cols
    if !ct.1 then (Option.none, ct.2)
    else
      let ad := add_data g table_name (RecordsArg.many (frameRecords df))
      match ad.1 with
      | Option.none => (Option.none, ct.2 ++ ad.2)
      | Option.some _ => (Option.some table_name, ct.2 ++ ad.2)

/-- TableOperations.get_attachment_url: fetch the selected record by row
identifier alone; when a record came back, is truthy (a non-empty dict),
and holds the column, return the url member of that truthy attachment
value; in every other case return none. The table_name argument is accepted
but never consulted. -/
def get_attachment_url (g : Gateway) (table_name : String)
    (column_name : String) (row_id : Int) : Option String × List Effect :=
  match g.fetchSelectedRecord row_id with
  | Option.none => (Option.none, [Effect.fetchSelected row_id])
  | Option.some recOpt =>
    let res := match recOpt with
      | Option.none => Option.none
      | Option.some record =>
        if record.isEmpty then Option.none
        else
          match List.find? (fun p => p.1 == column_name) record with
          | Option.none => Option.none
          | Option.some p => if p.2.truthy then p.2.url else Option.none
    (res, [Effect.fetchSelected row_id])

/-- TableOperations.bulk_delete_records: delegate to delete_data with the
list form. -/
def bulk_delete_records (g : Gateway) (table_name : String)
    (row_ids : List Value) : Bool × List Effect :=
  delete_data g table_name (IdsArg.many row_ids)

/-- The value of the common-column accumulator after folding a list of
sources whose snapshots are given by snapFn, mirroring the accumulator of
commonColsAux when every fetch succeeds. -/
def interOpt (snapFn : String → Snapshot) (acc : Option (List String)) :
    List String → Option (List String)
  | [] => acc
  | s :: rest =>
    interOpt snapFn
      (Option.some (match acc with
        | Option.none => (nonSystemCols (snapFn s)).dedup
        | Option.some cs =>
          cs.filter (fun c => ((nonSystemCols (snapFn s)).dedup).contains c)))
      rest

/-! Concrete fixtures used to evaluate the embedding on explicit inputs. -/

/-- A well-behaved Gateway: create succeeds and assigns one identifier per
record, update and destroy succeed, the read calls find nothing. -/
def gwA : Gateway where
  fetchTable := fun _ => Option.none
  create := fun _ rs => Option.some (rs.map (fun _ => Value.int 7))
  update := fun _ _ => Option.some ()
  destroy := fun _ _ => Option.some ()
  fetchSelectedRecord := fun _ => Option.none

/-- A one-row snapshot for table T whose column c holds the integer 1. -/
def snapB : Snapshot := [("id", [Value.int 1]), ("c", [Value.int 1])]

/-- A Gateway serving snapB for table T, with succeeding writes. -/
def gwB : Gateway where
  fetchTable := fun t => if t == "T" then Option.some snapB else Option.none
  create := fun _ rs => Option.some (rs.map (fun _ => Value.int 7))
  update := fun _ _ => Option.some ()
  destroy := fun _ _ => Option.some ()
  fetchSelectedRecord := fun _ => Option.none

/-- A one-column, one-row frame whose single cell is a null-like sentinel. -/
def dfNa : Frame := Frame.mk [("c", "object")] [[Value.na]]

/-- A snapshot whose only non-system column is x. -/
def snapX : Snapshot := [("id", [Value.int 1]), ("x", [Value.int 2])]

/-- A snapshot whose only non-system column is y. -/
def snapY : Snapshot := [("id", [Value.int 3]), ("y", [Value.int 4])]

/-- The snapshot assignment serving snapX for table A and snapY elsewhere. -/
def snapFnC : String → Snapshot := fun s => if s == "A" then snapX else snapY

/-- A Gateway whose fetches always succeed with the snapFnC snapshots. -/
def gwC : Gateway where
  fetchTable := fun s => Option.some (snapFnC s)
  create := fun _ rs => Option.some (rs.map (fun _ => Value.int 7))
  update := fun _ _ => Option.some ()
  destroy := fun _ _ => Option.some ()
  fetchSelectedRecord := fun _ => Option.none

/-! Helper lemmas shared by several claims. -/

/-- add_data issues exactly one Gateway create call carrying the
normalised record list, whether or not the call succeeds. -/
theorem add_data_trace (g : Gateway) (t : String) (arg : RecordsArg) :
    (add_data g t arg).2 = [Effect.create t (normalizeRecords arg)] := by
  unfold add_data
  cases h : g.create t (normalizeRecords arg) <;> simp [h]

/-- The create_table trace does not depend on the destroy outcome: it is
the throwaway create alone when create failed or returned no identifier,
and the create followed by the destroy of the first identifier otherwise. -/
theorem create_table_trace (g : Gateway) (t : String)
    (cols : List (String × String)) :
    (create_table g t cols).2 =
      match g.create t [dummyRecord cols] with
      | Option.none => [Effect.create t [dummyRecord cols]]
      | Option.some [] => [Effect.create t [dummyRecord cols]]
      | Option.some (id0 :: _) =>
        [Effect.create t [dummyRecord cols], Effect.destroy t [id0]] := by
  unfold create_table
  cases hc : g.create t [dummyRecord cols] with
  | none => rfl
  | some result =>
    cases result with
    | nil => rfl
    | cons id0 rest => cases hd : g.destroy t [id0] <;> simp [hd]

/-- Every effect in the create_table trace is either the throwaway create
or the destroy of the first identifier that create returned. -/
theorem create_table_trace_cases (g : Gateway) (t : String)
    (cols : List (String × String)) (e : Effect)
    (he : e ∈ (create_table g t cols).2) :
    e = Effect.create t [dummyRecord cols]
    ∨ ∃ id0 rest, g.create t [dummyRecord cols] = Option.some (id0 :: rest)
        ∧ e = Effect.destroy t [id0] := by
  rw [create_table_trace] at he
  cases hc : g.create t [dummyRecord cols] with
  | none => rw [hc] at he; simp at he; simp [he]
  | some result =>
    rw [hc] at he
    cases result with
    | nil => simp at he; simp [he]
    | cons id0 rest =>
      simp at he
      rcases he with h | h
      · simp [h]
      · exact Or.inr ⟨id0, rest, rfl, h⟩

/-- Null normalisation never leaves a null-like sentinel behind. -/
theorem normNa_ne_na (v : Value) : normNa v ≠ Value.na := by
  cases v <;> simp [normNa]

/-- Values of the throwaway record are the empty string or zero, never a
null-like sentinel. -/
theorem dummyRecord_no_na (cols : List (String × String)) :
    ∀ p ∈ dummyRecord cols, p.2 ≠ Value.na := by
  intro p hp
  unfold dummyRecord at hp
  rcases List.mem_map.mp hp with ⟨q, _, rfl⟩
  by_cases h : q.2 == "Text" <;> simp [h]

/-! Claim theorems. -/

/-- C10: get_attachment_url looks the record up by row identifier alone;
its result is identical for any two table_name arguments over the same
Gateway, column name and row identifier. -/
theorem get_attachment_url_ignores_table_name (g : Gateway)
    (t1 t2 column_name : String) (row_id : Int) :
    get_attachment_url g t1 column_name row_id
      = get_attachment_url g t2 column_name row_id := rfl

/-- C5: bulk_update_records reports one boolean per row, all of them equal
to whether the single Gateway update call succeeded: all true on success,
all false on exception, never a mixed outcome. -/
theorem bulk_update_records_all_or_nothing (g : Gateway) (t : String)
    (updates : List Record) :
    (bulk_update_records g t updates).1
      = List.replicate updates.length (g.update t updates).isSome
    ∧ ∀ a ∈ (bulk_update_records g t updates).1,
        ∀ b ∈ (bulk_update_records g t updates).1, a = b := by
  constructor
  · unfold bulk_update_records
    cases h : g.update t updates <;> simp
  · intro a ha b hb
    unfold bulk_update_records at ha hb
    cases h : g.update t updates <;> rw [h] at ha hb <;>
      simp only at ha hb <;>
      rw [List.eq_of_mem_replicate ha, List.eq_of_mem_replicate hb]

/-- Witness for C5 at a concrete gateway and a two-row batch. -/
theorem bulk_update_records_all_or_nothing_witness :
    (bulk_update_records
        (Gateway.mk (fun _ => Option.none) (fun _ _ => Option.none)
          (fun _ _ => Option.some ()) (fun _ _ => Option.none)
          (fun _ => Option.none)) "T" [[], []]).1
      = List.replicate 2 true :=
  (bulk_update_records_all_or_nothing _ "T" [[], []]).1

/-- C7: create_table_from_dataframe returns the failure value none on an
empty frame, with no Gateway interaction at all. -/
theorem create_table_from_dataframe_empty (g : Gateway) (t : String)
    (df : Frame) (h : df.empty = true) :
    create_table_from_dataframe g t df = (Option.none, []) := by
  unfold create_table_from_dataframe
  simp [h]

/-- Witness for C7: the frame with no rows and no columns. -/
theorem create_table_from_dataframe_empty_witness :
    create_table_from_dataframe
        (Gateway.mk (fun _ => Option.none) (fun _ _ => Option.none)
          (fun _ _ => Option.none) (fun _ _ => Option.none)
          (fun _ => Option.none)) "T" (Frame.mk [] []) = (Option.none, []) :=
  create_table_from_dataframe_empty _ "T" (Frame.mk [] []) (by decide)

/-- No record assembled from a frame contains a null-like sentinel: every
value has passed through normNa. -/
theorem frameRecords_no_na (df : Frame) :
    ∀ r ∈ frameRecords df, ∀ p ∈ r, p.2 ≠ Value.na := by
  intro r hr p hp
  unfold frameRecords at hr
  rcases List.mem_map.mp hr with ⟨row, _, rfl⟩
  have h2 := (List.of_mem_zip hp).2
  rcases List.mem_map.mp h2 with ⟨v, _, hv⟩
  rw [← hv]
  exact normNa_ne_na v

/-- Every effect issued by create_table_from_dataframe belongs to the
create_table trace for the dtype-mapped schema or is the single insertion
of the normalised frame records. -/
theorem create_table_from_dataframe_trace_cases (g : Gateway) (t : String)
    (df : Frame) (e : Effect)
    (he : e ∈ (create_table_from_dataframe g t df).2) :
    e ∈ (create_table g t (df.cols.map (fun p => (p.1, typeMapPandas p.2)))).2
    ∨ e = Effect.create t (frameRecords df) := by
  simp only [create_table_from_dataframe] at he
  split at he
  · simp at he
  · split at he
    · exact Or.inl he
    · split at he <;>
      · rw [List.mem_append] at he
        rcases he with h | h
        · exact Or.inl h
        · rw [add_data_trace] at h
          simp [normalizeRecords] at h
          exact Or.inr (by rw [h])

/-- C1: when create_table returns true over a Gateway that assigns one
identifier per created record, it has issued exactly one throwaway create
followed by the successful destroy of exactly the identifier that create
returned for the throwaway record. -/
theorem create_table_one_dummy_then_delete
    (g : Gateway) (table_name : String) (columns : List (String × String))
    (hlen : ∀ rs ids, g.create table_name rs = Option.some ids →
      ids.length = rs.length)
    (htrue : (create_table g table_name columns).1 = true) :
    ∃ id0,
      g.create table_name [dummyRecord columns] = Option.some [id0]
      ∧ g.destroy table_name [id0] = Option.some ()
      ∧ (create_table g table_name columns).2
          = [Effect.create table_name [dummyRecord columns],
             Effect.destroy table_name [id0]] := by
  cases hc : g.create table_name [dummyRecord columns] with
  | none => simp [create_table, hc] at htrue
  | some result =>
    have hl : result.length = 1 := by simpa using hlen _ _ hc
    rcases result with _ | ⟨id0, rest⟩
    · simp at hl
    · rcases rest with _ | ⟨v, rest2⟩
      · cases hd : g.destroy table_name [id0] with
        | none => simp [create_table, hc, hd] at htrue
        | some u =>
          cases u
          exact ⟨id0, rfl, hd, by simp [create_table_trace, hc]⟩
      · simp at hl

/-- Witness for C1 at a concrete gateway and a one-column schema. -/
theorem create_table_one_dummy_then_delete_witness :
    ∃ id0,
      gwA.create "T" [dummyRecord [("Name", "Text")]] = Option.some [id0]
      ∧ gwA.destroy "T" [id0] = Option.some ()
      ∧ (create_table gwA "T" [("Name", "Text")]).2
          = [Effect.create "T" [dummyRecord [("Name", "Text")]],
             Effect.destroy "T" [id0]] :=
  create_table_one_dummy_then_delete gwA "T" [("Name", "Text")]
    (by intro rs ids h; rw [← Option.some.inj h]; simp [gwA])
    (by decide)

/-- C6: add_data on a single record is the very same computation as
add_data on the one-element list holding that record, and over a Gateway
that assigns one identifier per record a successful call returns exactly
one identifier. -/
theorem add_data_single_eq_singleton (g : Gateway) (t : String) (r : Record)
    (hlen : ∀ rs ids, g.create t rs = Option.some ids →
      ids.length = rs.length) :
    add_data g t (RecordsArg.one r) = add_data g t (RecordsArg.many [r])
    ∧ ∀ ids, (add_data g t (RecordsArg.one r)).1 = Option.some ids →
        ids.length = 1 := by
  refine ⟨rfl, ?_⟩
  intro ids h
  simp only [add_data, normalizeRecords] at h
  cases hc : g.create t [r] with
  | none => rw [hc] at h; simp at h
  | some ids2 =>
    rw [hc] at h
    simp at h
    rw [← h]
    simpa using hlen _ _ hc

/-- Witness for C6 at a concrete gateway and the empty record. -/
theorem add_data_single_eq_singleton_witness :
    add_data gwA "T" (RecordsArg.one [])
      = add_data gwA "T" (RecordsArg.many [[]])
    ∧ ∀ ids, (add_data gwA "T" (RecordsArg.one [])).1 = Option.some ids →
        ids.length = 1 :=
  add_data_single_eq_singleton gwA "T" []
    (by intro rs ids h; rw [← Option.some.inj h]; simp [gwA])

/-- C8: every record carried by a create effect that
create_table_from_dataframe issues is free of null-like sentinels; the
normalisation to the explicit null happened before the data was sent. -/
theorem create_table_from_dataframe_normalizes_na (g : Gateway) (t : String)
    (df : Frame) :
    ∀ e ∈ (create_table_from_dataframe g t df).2,
      ∀ tn rs, e = Effect.create tn rs →
        ∀ r ∈ rs, ∀ p ∈ r, p.2 ≠ Value.na := by
  intro e he tn rs herec r hr p hp
  rcases create_table_from_dataframe_trace_cases g t df e he with h | h
  · rcases create_table_trace_cases g t _ e h with h2 | ⟨id0, rest, _, h2⟩
    · rw [herec] at h2
      cases h2
      simp at hr
      rw [hr] at hp
      exact dummyRecord_no_na _ p hp
    · rw [herec] at h2
      cases h2
  · rw [herec] at h
    cases h
    exact frameRecords_no_na df r hr p hp

/-- Witness for C8: the normalised cell of the sentinel-holding frame is
the explicit null, not the sentinel. -/
theorem create_table_from_dataframe_normalizes_na_witness :
    (("c", Value.null) : String × Value).2 ≠ Value.na :=
  create_table_from_dataframe_normalizes_na gwA "T" dfNa
    (Effect.create "T" (frameRecords dfNa)) (by decide)
    "T" (frameRecords dfNa) rfl
    [("c", Value.null)] (by decide) ("c", Value.null) (by decide)

/-- With no predicate columns the per-row match test is vacuously true, so
every entry of the id column is collected. -/
theorem matchingIds_nil (snap : Snapshot) :
    matchingIds snap [] = snapIds snap := by
  unfold matchingIds rowMatches
  simp [List.enum_map_snd]

/-- C2 counterexample: Python equality type-coerces booleans and numbers,
so the predicate value true matches a stored integer 1 and the delete call
is issued for that row, although the stored value is not the predicate
value. This refutes the no-type-coerced-matching part of the claim. -/
theorem bulk_delete_where_coerces_bool :
    bulk_delete_where gwB "T" [("c", Value.bool true)]
      = (true, [Effect.fetch "T", Effect.destroy "T" [Value.int 1]])
    ∧ Value.int 1 ≠ Value.bool true := by decide

/-- C2 (amended): a row matches iff every predicate column exists in the
snapshot, has a value at the row index, and that value is equal to the
predicate value under Python equality, which identifies true/false with
1/0 but performs no other cross-type or partial matching; the matching
identifiers are a subsequence of the id column (original row order); zero
matches returns success with only the fetch issued; otherwise exactly one
delete call carrying the matching identifiers follows the fetch. -/
theorem bulk_delete_where_spec (g : Gateway) (t : String)
    (wpred : List (String × Value)) (snap : Snapshot)
    (hfetch : g.fetchTable t = Option.some snap) :
    (∀ i, rowMatches snap wpred i = true ↔
       ∀ p ∈ wpred, ∃ vs, lookupCol snap p.1 = Option.some vs
         ∧ i < vs.length ∧ pyEq (vs.getD i Value.null) p.2 = true)
    ∧ List.Sublist (matchingIds snap wpred) (snapIds snap)
    ∧ (matchingIds snap wpred = [] →
        bulk_delete_where g t wpred = (true, [Effect.fetch t]))
    ∧ (matchingIds snap wpred ≠ [] →
        bulk_delete_where g t wpred
          = ((g.destroy t (matchingIds snap wpred)).isSome,
             [Effect.fetch t, Effect.destroy t (matchingIds snap wpred)])) := by
  refine ⟨?_, ?_, ?_, ?_⟩
  · intro i
    unfold rowMatches
    rw [List.all_eq_true]
    constructor
    · intro h p hp
      have hm := h p hp
      cases hl : lookupCol snap p.1 with
      | none => rw [hl] at hm; simp at hm
      | some vs =>
        rw [hl] at hm
        simp at hm
        exact ⟨vs, rfl, hm.1, by rw [List.getD_eq_getElem?_getD]; exact hm.2⟩
    · intro h p hp
      rcases h p hp with ⟨vs, hvs, hlt, heq⟩
      rw [hvs]
      simp [hlt]
      rwa [List.getD_eq_getElem?_getD, List.getElem?_eq_getElem hlt,
        Option.getD_some] at heq
  · unfold matchingIds
    have hs := List.filter_sublist
      (p := fun p => rowMatches snap wpred p.1) (snapIds snap).enum
    have hm := List.Sublist.map Prod.snd hs
    simpa [List.enum_map_snd] using hm
  · intro hnil
    simp [bulk_delete_where, hfetch, hnil]
  · intro hnil
    simp only [bulk_delete_where, hfetch]
    rw [if_neg (by simpa using hnil)]
    unfold delete_data
    cases hd : g.destroy t (matchingIds snap wpred) <;> simp [hd]

/-- Witness for C2 at the concrete snapshot gateway. -/
theorem bulk_delete_where_spec_witness :
    List.Sublist (matchingIds snapB [("c", Value.int 1)]) (snapIds snapB) :=
  (bulk_delete_where_spec gwB "T" [("c", Value.int 1)] snapB (by decide)).2.1

/-- C9: with an empty predicate mapping every row matches vacuously, and
on a table with at least one row bulk_delete_where deletes the entire id
column in one delete call. -/
theorem bulk_delete_where_empty_pred (g : Gateway) (t : String)
    (snap : Snapshot) (hfetch : g.fetchTable t = Option.some snap)
    (hrows : snapIds snap ≠ []) :
    (∀ i, rowMatches snap [] i = true)
    ∧ bulk_delete_where g t []
        = ((g.destroy t (snapIds snap)).isSome,
           [Effect.fetch t, Effect.destroy t (snapIds snap)]) := by
  constructor
  · intro i
    unfold rowMatches
    simp
  · simp only [bulk_delete_where, hfetch, matchingIds_nil]
    rw [if_neg (by simpa using hrows)]
    unfold delete_data
    cases hd : g.destroy t (snapIds snap) <;> simp [hd]

/-- Witness for C9 at the concrete one-row snapshot gateway. -/
theorem bulk_delete_where_empty_pred_witness :
    (∀ i, rowMatches snapB [] i = true)
    ∧ bulk_delete_where gwB "T" []
        = ((gwB.destroy "T" (snapIds snapB)).isSome,
           [Effect.fetch "T", Effect.destroy "T" (snapIds snapB)]) :=
  bulk_delete_where_empty_pred gwB "T" snapB (by decide) (by decide)

/-- When every fetch succeeds, the common-column loop returns the mirrored
accumulator and issues exactly one fetch per source, in order. -/
theorem commonColsAux_eq (g : Gateway) (snapFn : String → Snapshot) :
    ∀ (ss : List String) (acc : Option (List String)),
      (∀ s ∈ ss, g.fetchTable s = Option.some (snapFn s)) →
      commonColsAux g acc ss
        = (Option.some (interOpt snapFn acc ss), ss.map Effect.fetch) := by
  intro ss
  induction ss with
  | nil => intro acc _; rfl
  | cons s rest ih =>
    intro acc hfetch
    have hs : g.fetchTable s = Option.some (snapFn s) := hfetch s (by simp)
    have hrest : ∀ x ∈ rest, g.fetchTable x = Option.some (snapFn x) :=
      fun x hx => hfetch x (by simp [hx])
    simp only [commonColsAux, hs]
    rw [ih _ hrest]
    cases acc <;> rfl

/-- Membership in the mirrored accumulator started from a concrete set:
a column survives the fold iff it was in the starting set and is a
non-system column of every remaining source. -/
theorem interOpt_mem (snapFn : String → Snapshot) :
    ∀ (ss : List String) (cs : List String) (c : String),
      c ∈ (interOpt snapFn (Option.some cs) ss).getD []
        ↔ c ∈ cs ∧ ∀ s ∈ ss, c ∈ nonSystemCols (snapFn s) := by
  intro ss
  induction ss with
  | nil => intro cs c; simp [interOpt]
  | cons s rest ih =>
    intro cs c
    simp only [interOpt]
    rw [ih]
    simp [List.mem_filter, List.mem_dedup, List.elem_iff]
    tauto

/-- C3: over sources whose non-system column sets have no column in
common, merge_tables_strict fails after only its per-source fetches: the
result is false and the trace holds one fetch per source and no Gateway
write of any kind. -/
theorem merge_tables_strict_disjoint (g : Gateway) (sources : List String)
    (target : Option String) (create_new : Bool)
    (snapFn : String → Snapshot) (hne : sources ≠ [])
    (hfetch : ∀ s ∈ sources, g.fetchTable s = Option.some (snapFn s))
    (hdisj : ∀ c, ¬ ∀ s ∈ sources, c ∈ nonSystemCols (snapFn s)) :
    merge_tables_strict g sources target create_new
      = (false, sources.map Effect.fetch)
    ∧ ∀ e ∈ (merge_tables_strict g sources target create_new).2,
        e.isWrite = false := by
  rcases sources with _ | ⟨s0, rest⟩
  · exact absurd rfl hne
  · have hcc := commonColsAux_eq g snapFn (s0 :: rest) Option.none hfetch
    have hempty : (interOpt snapFn Option.none (s0 :: rest)).getD [] = [] := by
      by_contra hne2
      rcases List.exists_mem_of_ne_nil _ hne2 with ⟨c, hc⟩
      have hc2 : c ∈ (interOpt snapFn
          (Option.some ((nonSystemCols (snapFn s0)).dedup)) rest).getD [] := hc
      rw [interOpt_mem] at hc2
      refine hdisj c ?_
      intro s hs
      rcases List.mem_cons.mp hs with rfl | hs2
      · exact (List.mem_dedup).mp hc2.1
      · exact hc2.2 s hs2
    have hmain : merge_tables_strict g (s0 :: rest) target create_new
        = (false, (s0 :: rest).map Effect.fetch) := by
      simp only [merge_tables_strict]
      rw [if_neg (by simp)]
      simp only [hcc]
      simp [hempty]
    refine ⟨hmain, ?_⟩
    rw [hmain]
    intro e he
    rcases List.mem_map.mp he with ⟨s, _, rfl⟩
    rfl

/-- Witness for C3 at two concrete single-column disjoint sources. -/
theorem merge_tables_strict_disjoint_witness :
    merge_tables_strict gwC ["A", "B"] Option.none true
      = (false, ["A", "B"].map Effect.fetch)
    ∧ ∀ e ∈ (merge_tables_strict gwC ["A", "B"] Option.none true).2,
        e.isWrite = false :=
  merge_tables_strict_disjoint gwC ["A", "B"] Option.none true snapFnC
    (by decide)
    (by intro s hs; rfl)
    (by
      intro c hc
      have h1 := hc "A" (by simp)
      have h2 := hc "B" (by simp)
      simp [snapFnC, snapX, snapY, nonSystemCols] at h1 h2
      rw [h1] at h2
      exact absurd h2 (by decide))

/-- Membership in an assembled merge record: a pair belongs to the record
for row i iff its column is non-system and the snapshot holds that column
with a value list reaching index i whose value there is the pair's value. -/
theorem recordOfRow_mem (snap : Snapshot) (i : Nat) (p : String × Value) :
    p ∈ recordOfRow snap i ↔
      (¬(p.1 = "id" ∨ p.1 = "manualSort")
       ∧ ∃ vs, (p.1, vs) ∈ snap ∧ i < vs.length
           ∧ vs.getD i Value.null = p.2) := by
  unfold recordOfRow
  rw [List.mem_filterMap]
  constructor
  · rintro ⟨q, hq, hfq⟩
    by_cases hsys : (q.1 == "id" || q.1 == "manualSort") = true
    · rw [if_pos hsys] at hfq
      exact absurd hfq (by simp)
    · rw [if_neg hsys] at hfq
      by_cases hlt : i < q.2.length
      · rw [if_pos hlt] at hfq
        have hpq := Option.some.inj hfq
        rw [← hpq]
        refine ⟨by simpa using hsys, q.2, ?_, hlt, rfl⟩
        exact hq
      · rw [if_neg hlt] at hfq
        exact absurd hfq (by simp)
  · rintro ⟨hsys, vs, hmem, hlt, heq⟩
    refine ⟨(p.1, vs), hmem, ?_⟩
    rw [if_neg (by simpa using hsys), if_pos hlt]
    rw [heq]

/-- C4: with sources S1, S2 and no target, merge_tables makes S1 the
target and excludes it from the copy loop: one fetch of S2 for schema
inference, the create_table effects on S1, one fetch of S2 for copying,
and the single append of the records assembled from the S2 snapshot;
every write targets S1, the only deletion is of the identifier the
Gateway assigned to the throwaway schema record, and an assembled record
holds exactly the non-system columns present at its row index in its
originating snapshot. -/
theorem merge_tables_default_target (g : Gateway) (s1 s2 : String)
    (snap2 : Snapshot) (hfetch : g.fetchTable s2 = Option.some snap2) :
    merge_tables g [s1, s2] Option.none true
      = (true,
         Effect.fetch s2 :: (create_table g s1 (inferredCols snap2)).2
           ++ Effect.fetch s2 ::
             (if (recordsOfSnap snap2).isEmpty then []
              else [Effect.create s1 (recordsOfSnap snap2)]))
    ∧ (∀ e ∈ (merge_tables g [s1, s2] Option.none true).2,
         e.isWrite = true →
           (∃ rs, e = Effect.create s1 rs) ∨ ∃ ids, e = Effect.destroy s1 ids)
    ∧ (∀ ids,
         Effect.destroy s1 ids ∈ (merge_tables g [s1, s2] Option.none true).2 →
           ∃ rid rest, g.create s1 [dummyRecord (inferredCols snap2)]
               = Option.some (rid :: rest) ∧ ids = [rid])
    ∧ (∀ snap i p, p ∈ recordOfRow snap i ↔
         (¬(p.1 = "id" ∨ p.1 = "manualSort")
          ∧ ∃ vs, (p.1, vs) ∈ snap ∧ i < vs.length
              ∧ vs.getD i Value.null = p.2)) := by
  have hcopy : copySources g s1 [s2]
      = (true, Effect.fetch s2 ::
          (if (recordsOfSnap snap2).isEmpty then []
           else [Effect.create s1 (recordsOfSnap snap2)])) := by
    by_cases hre : (recordsOfSnap snap2).isEmpty
    · simp [copySources, hfetch, hre]
    · simp [copySources, hfetch, hre, add_data_trace, normalizeRecords]
  have hmain : merge_tables g [s1, s2] Option.none true
      = (true,
         Effect.fetch s2 :: (create_table g s1 (inferredCols snap2)).2
           ++ Effect.fetch s2 ::
             (if (recordsOfSnap snap2).isEmpty then []
              else [Effect.create s1 (recordsOfSnap snap2)])) := by
    show (match g.fetchTable s2 with
      | Option.none => (false, [Effect.fetch s2])
      | Option.some first_source_data =>
        ((copySources g s1 [s2]).1,
         Effect.fetch s2 :: (create_table g s1 (inferredCols first_source_data)).2
           ++ (copySources g s1 [s2]).2))
      = (true,
         Effect.fetch s2 :: (create_table g s1 (inferredCols snap2)).2
           ++ Effect.fetch s2 ::
             (if (recordsOfSnap snap2).isEmpty then []
              else [Effect.create s1 (recordsOfSnap snap2)]))
    rw [hfetch, hcopy]
  refine ⟨hmain, ?_, ?_, fun snap i p => recordOfRow_mem snap i p⟩
  · intro e he hw
    rw [hmain] at he
    rcases List.mem_cons.mp he with rfl | he2
    · simp [Effect.isWrite] at hw
    rcases List.mem_append.mp he2 with he3 | he3
    · rcases create_table_trace_cases g s1 _ e he3 with rfl | ⟨id0, _, _, rfl⟩
      · exact Or.inl ⟨_, rfl⟩
      · exact Or.inr ⟨_, rfl⟩
    rcases List.mem_cons.mp he3 with rfl | he4
    · simp [Effect.isWrite] at hw
    · by_cases hre : (recordsOfSnap snap2).isEmpty
      · rw [if_pos hre] at he4
        exact absurd he4 (by simp)
      · rw [if_neg hre] at he4
        have := List.mem_singleton.mp he4
        exact Or.inl ⟨_, this⟩
  · intro ids he
    rw [hmain] at he
    rcases List.mem_cons.mp he with he1 | he2
    · exact absurd he1 (by simp)
    rcases List.mem_append.mp he2 with he3 | he3
    · rcases create_table_trace_cases g s1 _ _ he3 with he4 | ⟨id0, rest, hc, he4⟩
      · exact absurd he4 (by simp)
      · exact ⟨id0, rest, hc, (Effect.destroy.inj he4).2⟩
    rcases List.mem_cons.mp he3 with he4 | he4
    · exact absurd he4 (by simp)
    · by_cases hre : (recordsOfSnap snap2).isEmpty
      · rw [if_pos hre] at he4
        exact absurd he4 (by simp)
      · rw [if_neg hre] at he4
        exact absurd (List.mem_singleton.mp he4) (by simp)

/-- Witness for C4 at the concrete snapshot gateway, projecting the
record-contents characterisation at a concrete row. -/
theorem merge_tables_default_target_witness :
    (("c", Value.int 1) : String × Value) ∈ recordOfRow snapB 0 ↔
      (¬((("c", Value.int 1) : String × Value).1 = "id"
          ∨ (("c", Value.int 1) : String × Value).1 = "manualSort")
       ∧ ∃ vs, ((("c", Value.int 1) : String × Value).1, vs) ∈ snapB
           ∧ 0 < vs.length
           ∧ vs.getD 0 Value.null = (("c", Value.int 1) : String × Value).2) :=
  (merge_tables_default_target gwB "S1" "T" snapB (by decide)).2.2.2
    snapB 0 ("c", Value.int 1)

end Keyward
